import Mathlib

/-!
Shallow embedding of `src/firmware/esp/main/comms_wifi.cpp` (CommsManager WiFi
subsystem of the adsbee firmware) and of the inter-chip register transport
contract exercised by `src/firmware/pico/src/target_test/test_spi_coprocessor.cc`.

Pure functions of the source become Lean functions; the stateful event handler
and the per-feed forwarder loop body become explicit state-passing step
functions; OS/network syscall results (socket, connect, send, DNS) are supplied
by an environment record so that every control path of the source is reachable
in the model. Observable calls (socket open/close, sends, event-group bit sets)
are recorded as action traces.
-/

/-! ## Constants (comms_wifi.cpp lines 19-23) -/

def kWiFiNumRetries : Nat := 3

def kWiFiRetryWaitTimeMs : Nat := 100

def kWiFiStaMaxNumReconnectAttempts : Nat := 5

def kWiFiScanDefaultListSize : Nat := 20

def kWiFiTCPSocketReconnectIntervalMs : Nat := 5000

/-- `errno` value for the lwIP resource-exhaustion condition retried by the
access-point broadcaster (`ENOMEM`, errno 12). -/
def ENOMEM : Nat := 12

/-! ## Client table (ClientRecord, `wifi_clients_list_`) -/

/-- One slot of the fixed-size client table: hardware (MAC) address, IP
address, liveness flag. -/
structure ClientRecord where
  mac : Nat
  ip : Nat
  active : Bool
deriving DecidableEq, Repr

/-- Modelled from the spec: `CommsManager::WiFiRemoveClient` is called by the
event handler on a client-disassociate event but its body is not part of this
source slice; the spec says "Client disassociate → deactivate the matching
ClientRecord (matched by hardware address)" and "never physically removed,
only deactivated". -/
def WiFiRemoveClient (clients : List ClientRecord) (mac : Nat) : List ClientRecord :=
  clients.map (fun c => if c.mac = mac then { c with active := false } else c)

/-! ## WiFi event handler (comms_wifi.cpp lines 40-90) -/

/-- The CommsManager state touched by `WiFiEventHandler`: the function-static
station reconnect counter `s_retry_num`, the two event-group bits
(`WIFI_CONNECTED_BIT`, `WIFI_FAIL_BIT`), the `wifi_sta_has_ip_` flag and the
client table. -/
structure CommsState where
  s_retry_num : Nat
  wifi_connected_bit : Bool
  wifi_fail_bit : Bool
  wifi_sta_has_ip : Bool
  wifi_clients_list : List ClientRecord
deriving DecidableEq, Repr

/-- State at first entry: the static `s_retry_num` initializes to 0, event
group bits clear, no IP, empty client table. -/
def initCommsState : CommsState :=
  { s_retry_num := 0
    wifi_connected_bit := false
    wifi_fail_bit := false
    wifi_sta_has_ip := false
    wifi_clients_list := [] }

/-- The WiFi events dispatched by the handler's switch statement. -/
inductive WiFiEvent where
  | apStaConnected (mac aid : Nat)
  | apStaDisconnected (mac aid : Nat)
  | staStart
  | staDisconnected (reason : Nat)
  | staConnected
deriving DecidableEq, Repr

/-- Observable calls made by the handler: a reconnect attempt
(`esp_wifi_connect`) and the terminal-failure bit set
(`xEventGroupSetBits(_, WIFI_FAIL_BIT)`). -/
inductive HandlerAction where
  | espWifiConnect
  | setFailBit
deriving DecidableEq, Repr

/-- `CommsManager::WiFiEventHandler` (lines 40-90), as a step function on
`CommsState` returning the successor state and the trace of observable calls.
The `WIFI_EVENT_AP_STACONNECTED` case only logs; `WIFI_EVENT_AP_STADISCONNECTED`
calls `WiFiRemoveClient`; `WIFI_EVENT_STA_START` calls `esp_wifi_connect`;
`WIFI_EVENT_STA_DISCONNECTED` clears the connected bit and the has-IP flag then
either retries (counter below `kWiFiStaMaxNumReconnectAttempts`) or sets the
fail bit; `WIFI_EVENT_STA_CONNECTED` sets the connected bit. -/
def WiFiEventHandler (s : CommsState) (e : WiFiEvent) : CommsState × List HandlerAction :=
  match e with
  | .apStaConnected _ _ => (s, [])
  | .apStaDisconnected mac _ =>
      ({ s with wifi_clients_list := WiFiRemoveClient s.wifi_clients_list mac }, [])
  | .staStart => (s, [.espWifiConnect])
  | .staDisconnected _ =>
      let s1 : CommsState :=
        { s with wifi_connected_bit := false, wifi_sta_has_ip := false }
      if s1.s_retry_num < kWiFiStaMaxNumReconnectAttempts then
        ({ s1 with s_retry_num := s1.s_retry_num + 1 }, [.espWifiConnect])
      else
        ({ s1 with wifi_fail_bit := true }, [.setFailBit])
  | .staConnected =>
      ({ s with wifi_connected_bit := true }, [])

/-- Running the handler over a sequence of events, collecting the action
trace. -/
def runHandler (s : CommsState) : List WiFiEvent → CommsState × List HandlerAction
  | [] => (s, [])
  | e :: es =>
      let r1 := WiFiEventHandler s e
      let r2 := runHandler r1.1 es
      (r2.1, r1.2 ++ r2.2)

/-- All states visited while running the handler over a sequence of events
(initial state included). -/
def handlerStates (s : CommsState) : List WiFiEvent → List CommsState
  | [] => [s]
  | e :: es => s :: handlerStates (WiFiEventHandler s e).1 es

/-- Number of steps of a run at which the terminal-failure bit transitions
from clear to set, i.e. the number of emissions of the failure signal. -/
def failEmissions (s : CommsState) : List WiFiEvent → Nat
  | [] => 0
  | e :: es =>
      let s1 := (WiFiEventHandler s e).1
      (if !s.wifi_fail_bit && s1.wifi_fail_bit then 1 else 0) + failEmissions s1 es

/-- Number of reconnect attempts (`esp_wifi_connect` calls) in an action
trace. -/
def countConnects : List HandlerAction → Nat
  | [] => 0
  | a :: r => (if a = .espWifiConnect then 1 else 0) + countConnects r

example :
    (runHandler initCommsState
      (List.replicate 7 (WiFiEvent.staDisconnected 0))).1.s_retry_num = 5 := by decide

example :
    countConnects (runHandler initCommsState
      (List.replicate 7 (WiFiEvent.staDisconnected 0))).2 = 5 := by decide

example :
    failEmissions initCommsState (List.replicate 7 (WiFiEvent.staDisconnected 0)) = 1 := by
  decide

/-! ## Feed forwarder (`CommsManager::WiFiStationTask`, lines 197-362) -/

/-- A decoded transponder packet: opaque to this slice except for its raw
payload and the validity predicate `IsValid()` consulted by the Beast
dispatch. -/
structure DecodedTransponderPacket where
  raw : List Nat
  valid : Bool
deriving DecidableEq, Repr

/-- `DecodedTransponderPacket::IsValid()` (external; only its boolean result
matters to this slice). -/
def DecodedTransponderPacket.IsValid (p : DecodedTransponderPacket) : Bool := p.valid

/-- The reporting protocols dispatched by the send switch (lines 313-350):
`kBeast`, `kBeastRaw`, and everything else (the `default:` case). -/
inductive ReportingProtocol where
  | kBeast
  | kBeastRaw
  | kOther
deriving DecidableEq, Repr

/-- Per-slot feed configuration (external `settings_manager.settings`, read
only by this slice): active flag, protocol, URI, port, receiver id. The URI is
kept as a character list so that `IsNotIPAddress` can scan it. -/
structure FeedConfig where
  feed_is_active : Bool
  feed_protocol : ReportingProtocol
  feed_uri : List Char
  feed_port : Nat
  feed_receiver_id : List Nat
deriving DecidableEq, Repr

/-- `IsNotIPAddress` (lines 163-171): the URI is treated as a hostname iff it
contains any alphabetic character. -/
def IsNotIPAddress (uri : List Char) : Bool :=
  uri.any (fun c => c.isAlpha)

/-- Per-feed connection state: the socket handle `feed_sock[i]`, the
`feed_sock_is_connected[i]` flag and the last reconnect-attempt timestamp
`feed_sock_last_connect_timestamp_ms[i]` (lines 205-207). -/
structure FeedSlotState where
  feed_sock : Int
  feed_sock_is_connected : Bool
  feed_sock_last_connect_timestamp_ms : Nat
deriving DecidableEq, Repr

/-- Initial per-slot state: arrays zero-initialized (lines 205-207). -/
def initFeedSlotState : FeedSlotState :=
  { feed_sock := 0, feed_sock_is_connected := false
    feed_sock_last_connect_timestamp_ms := 0 }

/-- Results of the OS/network calls a single slot iteration can make:
`socket()` return value (`<= 0` is treated as failure by line 268),
`ResolveURIToIP` success, `connect()` return value (nonzero is failure,
line 298) and `send()` return value (negative is failure, line 330). -/
structure NetEnv where
  socketRet : Int
  dnsOk : Bool
  connectRet : Int
  sendRet : Int
deriving DecidableEq, Repr

/-- Observable socket operations of the forwarder. -/
inductive FeedAction where
  | openSock (h : Int)
  | closeSock (h : Int)
  | sendMsg (h : Int) (payload : List Nat)
deriving DecidableEq, Repr

/-- `uint32_t` subtraction `a - b` as used by the reconnect metering
(line 260): both operands reduced mod 2^32, wrap-around difference. -/
def u32sub (a b : Nat) : Nat :=
  (a % 4294967296 + 4294967296 - b % 4294967296) % 4294967296

/-- The shared Beast send code (lines 320-345): serialize the packet through
the external codec `TransponderPacketToBeastFramePrependReceiverID` (modelled
as the function argument `codec`, mapping the packet and the receiver id to
the framed bytes), `send()` it; on failure close the socket and mark the feed
disconnected, on success increment `feed_mps_counter_[i]`. -/
def feedSendBeast (codec : DecodedTransponderPacket → List Nat → List Nat)
    (cfg : FeedConfig) (packet : DecodedTransponderPacket)
    (env : NetEnv) (st : FeedSlotState) (mps_counter : Nat) :
    FeedSlotState × Nat × List FeedAction :=
  let buf := codec packet cfg.feed_receiver_id
  if env.sendRet < 0 then
    ({ st with feed_sock_is_connected := false }, mps_counter,
      [.sendMsg st.feed_sock buf, .closeSock st.feed_sock])
  else
    (st, mps_counter + 1, [.sendMsg st.feed_sock buf])

/-- The protocol dispatch (switch at lines 313-350): `kBeast` skips invalid
packets then falls through into the `kBeastRaw` code; unsupported protocols do
nothing. -/
def feedSendPhase (codec : DecodedTransponderPacket → List Nat → List Nat)
    (cfg : FeedConfig) (packet : DecodedTransponderPacket)
    (env : NetEnv) (st : FeedSlotState) (mps_counter : Nat) :
    FeedSlotState × Nat × List FeedAction :=
  match cfg.feed_protocol with
  | .kBeast =>
      if !packet.IsValid then (st, mps_counter, [])
      else feedSendBeast codec cfg packet env st mps_counter
  | .kBeastRaw => feedSendBeast codec cfg packet env st mps_counter
  | .kOther => (st, mps_counter, [])

/-- One feed slot's share of a forwarder loop iteration (the body of the
`for` loop at lines 241-351): close the socket of a deactivated feed; for an
active disconnected feed, meter reconnect attempts to one per
`kWiFiTCPSocketReconnectIntervalMs`, then create the socket, resolve the URI
when it is a hostname, and `connect()` — each failure closes the socket (when
one was created) and leaves the slot disconnected until the next interval;
once connected (possibly in this same iteration) run the protocol dispatch on
the dequeued packet. -/
def feedSlotStep (codec : DecodedTransponderPacket → List Nat → List Nat)
    (cfg : FeedConfig) (packet : DecodedTransponderPacket)
    (now_ms : Nat) (env : NetEnv) (st : FeedSlotState) (mps_counter : Nat) :
    FeedSlotState × Nat × List FeedAction :=
  if !cfg.feed_is_active then
    if st.feed_sock_is_connected then
      ({ st with feed_sock_is_connected := false }, mps_counter,
        [.closeSock st.feed_sock])
    else
      (st, mps_counter, [])
  else if !st.feed_sock_is_connected then
    if u32sub now_ms st.feed_sock_last_connect_timestamp_ms ≤
        kWiFiTCPSocketReconnectIntervalMs then
      (st, mps_counter, [])
    else
      let st1 : FeedSlotState :=
        { st with feed_sock_last_connect_timestamp_ms := now_ms }
      if env.socketRet ≤ 0 then
        ({ st1 with feed_sock := env.socketRet }, mps_counter, [])
      else
        let st2 : FeedSlotState := { st1 with feed_sock := env.socketRet }
        if IsNotIPAddress cfg.feed_uri && !env.dnsOk then
          ({ st2 with feed_sock_is_connected := false }, mps_counter,
            [.openSock env.socketRet, .closeSock env.socketRet])
        else if env.connectRet ≠ 0 then
          ({ st2 with feed_sock_is_connected := false }, mps_counter,
            [.openSock env.socketRet, .closeSock env.socketRet])
        else
          let st3 : FeedSlotState := { st2 with feed_sock_is_connected := true }
          let r := feedSendPhase codec cfg packet env st3 mps_counter
          (r.1, r.2.1, FeedAction.openSock env.socketRet :: r.2.2)
  else
    feedSendPhase codec cfg packet env st mps_counter

/-- The shutdown sweep (lines 354-361): on task exit, close the socket of
every still-connected slot and clear its connected flag. -/
def closeAllSockets : List FeedSlotState → List FeedSlotState × List FeedAction
  | [] => ([], [])
  | st :: rest =>
      let r := closeAllSockets rest
      if st.feed_sock_is_connected then
        ({ st with feed_sock_is_connected := false } :: r.1,
          FeedAction.closeSock st.feed_sock :: r.2)
      else
        (st :: r.1, r.2)

/-- Contribution of one action to the number of open sockets of a slot. -/
def feedActionOpenDelta : FeedAction → Int
  | .openSock _ => 1
  | .closeSock _ => -1
  | .sendMsg _ _ => 0

/-- Number of open sockets after applying a trace of actions to a slot that
starts with `n` open sockets. -/
def openAfter (n : Int) : List FeedAction → Int
  | [] => n
  | a :: r => openAfter (n + feedActionOpenDelta a) r

/-- `openCountsOk n acts` holds when, starting from `n` open sockets, the
open-socket count stays at most 1 after every action of the trace. -/
def openCountsOk : Int → List FeedAction → Bool
  | _, [] => true
  | n, a :: r =>
      decide (n + feedActionOpenDelta a ≤ 1) && openCountsOk (n + feedActionOpenDelta a) r

/-- Whether a trace contains a send attempt. -/
def hasSendAction (acts : List FeedAction) : Bool :=
  acts.any (fun a => match a with | .sendMsg _ _ => true | _ => false)

/-- Whether a trace contains a socket creation. -/
def hasOpenAction (acts : List FeedAction) : Bool :=
  acts.any (fun a => match a with | .openSock _ => true | _ => false)

/-! ## Access-point broadcaster (`CommsManager::WiFiAccessPointTask`,
lines 92-149) -/

/-- Result of one `sendto` attempt: the return value and the `errno` left
behind when it is negative. -/
structure SendtoResult where
  ret : Int
  errnoVal : Nat
deriving DecidableEq, Repr

/-- The bounded-retry `sendto` loop for one client (lines 118-131):
`for (num_tries = 0; num_tries < kWiFiNumRetries; num_tries++)` with
`break` as soon as `ret >= 0 || errno != ENOMEM`. `results i` is the outcome
of attempt `i`. Returns the number of attempts performed together with the
final `ret`/`errno` pair. -/
def udpSendFrom (results : Nat → SendtoResult) (i : Nat) : Nat × SendtoResult :=
  if h : i < kWiFiNumRetries then
    let r := results i
    if 0 ≤ r.ret ∨ r.errnoVal ≠ ENOMEM then (i + 1, r)
    else udpSendFrom results (i + 1)
  else
    (i, results (i - 1))
termination_by kWiFiNumRetries - i

/-- The retry loop entered at attempt 0, as the client loop does. -/
def udpSendLoop (results : Nat → SendtoResult) : Nat × SendtoResult :=
  udpSendFrom results 0

/-- The fan-out over the client table (lines 115-140): every `active` client
receives its own independent retry loop; `results` is indexed first by the
client's slot index, then by the attempt number. Returns, in slot order, one
`(attempts, final result)` pair per active client. -/
def broadcastFrom (clients : List ClientRecord)
    (results : Nat → Nat → SendtoResult) (i : Nat) : List (Nat × SendtoResult) :=
  match clients with
  | [] => []
  | c :: rest =>
      if c.active then
        udpSendLoop (results i) :: broadcastFrom rest results (i + 1)
      else
        broadcastFrom rest results (i + 1)

/-- Slot indices of the active clients, starting from index `i`. -/
def activeIdxs : List ClientRecord → Nat → List Nat
  | [], _ => []
  | c :: rest, i =>
      if c.active then i :: activeIdxs rest (i + 1) else activeIdxs rest (i + 1)

/-! ## Bounded queues and the public enqueue operations (lines 557-594) -/

/-- FreeRTOS `xQueueSend` result values relevant here. -/
inductive QueueSendResult where
  | pdTRUE
  | errQUEUE_FULL
deriving DecidableEq, Repr

/-- A FreeRTOS bounded queue: current items plus fixed capacity. -/
structure BoundedQueue (α : Type) where
  items : List α
  capacity : Nat
deriving Repr

/-- `xQueueSend(q, x, 0)`: fails with `errQUEUE_FULL` on a full queue,
otherwise appends the item (queued by value). -/
def xQueueSend {α : Type} (q : BoundedQueue α) (x : α) :
    QueueSendResult × BoundedQueue α :=
  if q.capacity ≤ q.items.length then (.errQUEUE_FULL, q)
  else (.pdTRUE, { q with items := q.items ++ [x] })

/-- `xQueueReset(q)`: empties the queue. -/
def xQueueReset {α : Type} (q : BoundedQueue α) : BoundedQueue α :=
  { q with items := [] }

/-- `CommsManager::WiFiStationSendDecodedTransponderPacket` (lines 557-575):
refuse when the station task is not running; on `errQUEUE_FULL` reset the
queue and return false; on any other non-`pdTRUE` code return false; else
return true. Returns the result handed to the caller and the queue
afterwards. -/
def WiFiStationSendDecodedTransponderPacket
    (run_wifi_sta_task : Bool) (q : BoundedQueue DecodedTransponderPacket)
    (p : DecodedTransponderPacket) :
    Bool × BoundedQueue DecodedTransponderPacket :=
  if !run_wifi_sta_task then (false, q)
  else
    let r := xQueueSend q p
    if r.1 = .errQUEUE_FULL then (false, xQueueReset r.2)
    else if r.1 ≠ .pdTRUE then (false, r.2)
    else (true, r.2)

/-- A queued broadcast message (`NetworkMessage`): payload bytes, length,
destination port. -/
structure NetworkMessage where
  data : List Nat
  len : Nat
  port : Nat
deriving DecidableEq, Repr

/-- `CommsManager::WiFiAccessPointSendMessageToAllStations` (lines 577-594):
same structure as the station enqueue, over the AP message queue. -/
def WiFiAccessPointSendMessageToAllStations
    (run_wifi_ap_task : Bool) (q : BoundedQueue NetworkMessage)
    (m : NetworkMessage) : Bool × BoundedQueue NetworkMessage :=
  if !run_wifi_ap_task then (false, q)
  else
    let r := xQueueSend q m
    if r.1 = .errQUEUE_FULL then (false, xQueueReset r.2)
    else if r.1 ≠ .pdTRUE then (false, r.2)
    else (true, r.2)

/-! ## `CommsManager::WiFiInit` (lines 421-525) -/

/-- The manager-level flags `WiFiInit` reads or writes, alongside the
event-handler state (which holds the reconnect counter). -/
structure SysState where
  comms : CommsState
  wifi_was_initialized : Bool
  run_wifi_ap_task : Bool
  run_wifi_sta_task : Bool
deriving DecidableEq, Repr

/-- What a `WiFiInit` call did: its boolean return value, whether the radio
was stopped (`esp_wifi_stop`) or started (`esp_wifi_start`), and which tasks
were launched (`xTaskCreatePinnedToCore`). -/
structure WiFiInitResult where
  ok : Bool
  radioStopped : Bool
  radioStarted : Bool
  apTaskLaunched : Bool
  staTaskLaunched : Bool
deriving DecidableEq, Repr

/-- `CommsManager::WiFiInit` (lines 421-525), with the driver setup calls
(netif creation, config) elided as pure effects and the blocking
`xEventGroupWaitBits` on `WIFI_CONNECTED_BIT | WIFI_FAIL_BIT` replaced by the
bit pair it observed (`bits_connected`, `bits_fail`). Sets
`wifi_was_initialized_`; with both modes disabled it stops the radio and
returns true; otherwise it starts the radio, launches the AP task when AP
mode is enabled, and in station mode checks `WIFI_CONNECTED_BIT` first
(launching the station task and returning true), returning false when only
`WIFI_FAIL_BIT` (or neither bit) was observed. -/
def WiFiInit (st : SysState) (wifi_ap_enabled wifi_sta_enabled : Bool)
    (bits_connected bits_fail : Bool) : SysState × WiFiInitResult :=
  let st0 : SysState := { st with wifi_was_initialized := true }
  if !wifi_ap_enabled && !wifi_sta_enabled then
    (st0, { ok := true, radioStopped := true, radioStarted := false
            apTaskLaunched := false, staTaskLaunched := false })
  else
    let st1 : SysState :=
      if wifi_ap_enabled then { st0 with run_wifi_ap_task := true } else st0
    if wifi_sta_enabled then
      if bits_connected then
        ({ st1 with run_wifi_sta_task := true },
          { ok := true, radioStopped := false, radioStarted := true
            apTaskLaunched := wifi_ap_enabled, staTaskLaunched := true })
      else
        -- WIFI_FAIL_BIT observed, or the unexpected-event branch: both
        -- return false without launching the station task.
        (st1, { ok := false, radioStopped := false, radioStarted := true
                apTaskLaunched := wifi_ap_enabled, staTaskLaunched := false })
    else
      (st1, { ok := true, radioStopped := false, radioStarted := true
              apTaskLaunched := wifi_ap_enabled, staTaskLaunched := false })

/-! ## Inter-chip register transport (contract of `SPICoprocessor`,
exercised by `test_spi_coprocessor.cc`) -/

/-- The two object-dictionary addresses exercised by the target tests:
the scalar scratch register and the structured settings block. -/
inductive ODAddress where
  | kAddrScratch
  | kAddrSettingsStruct
deriving DecidableEq, Repr

/-- A typed value of the object dictionary: a 32-bit scalar for the scratch
register, a byte blob for the settings struct. -/
inductive ODValue where
  | scalar (v : Nat)
  | settingsBlob (bytes : List Nat)
deriving DecidableEq, Repr

/-- Modelled from the spec: the remote side's register file behind the
inter-chip transport (`SPICoprocessor` / `esp32` object; its implementation
is not part of this source slice). The spec gives only the contract
"`Read(address) -> (value, success)` and `Write(address, value,
require_ack=false) -> success`, operating over a fixed address space of typed
values (e.g., a scalar scratch register, a structured settings block)". -/
structure ObjectDictionaryState where
  scratch : Nat
  settings_blob : List Nat
deriving DecidableEq, Repr

/-- Modelled from the spec: `SPICoprocessor::Write(address, value,
require_ack)`. A type-correct write stores the value at the address and
succeeds whether or not an acknowledgment was requested (when requested, the
call returns success only once the remote side has confirmed, so a successful
return means the store took effect either way); a type-mismatched write
fails and leaves the dictionary unchanged. -/
def SPICoprocessorWrite (od : ObjectDictionaryState) (addr : ODAddress)
    (v : ODValue) (require_ack : Bool) : Bool × ObjectDictionaryState :=
  match addr, v with
  | .kAddrScratch, .scalar x => (true, { od with scratch := x })
  | .kAddrSettingsStruct, .settingsBlob b => (true, { od with settings_blob := b })
  | _, _ => (false, od)

/-- Modelled from the spec: `SPICoprocessor::Read(address)`, returning the
typed value stored at the address together with a success flag. -/
def SPICoprocessorRead (od : ObjectDictionaryState) (addr : ODAddress) :
    ODValue × Bool :=
  match addr with
  | .kAddrScratch => (.scalar od.scratch, true)
  | .kAddrSettingsStruct => (.settingsBlob od.settings_blob, true)

/-! ## Theorems -/

/-- `countConnects` distributes over trace concatenation. -/
theorem countConnects_append (l1 l2 : List HandlerAction) :
    countConnects (l1 ++ l2) = countConnects l1 + countConnects l2 := by
  induction l1 with
  | nil => simp [countConnects]
  | cons a l1 ih => simp [countConnects, ih]; omega

/-- The reconnect-attempt bound, written out. -/
theorem kWiFiStaMaxNumReconnectAttempts_eq : kWiFiStaMaxNumReconnectAttempts = 5 := rfl

/-- Once the reconnect counter has reached the maximum and the fail bit is
set, further station-disconnect events leave the counter unchanged, attempt
no reconnect, and emit no further failure signal. -/
theorem disc_run_after_fail (rs : List Nat) (s : CommsState)
    (hr : ¬ s.s_retry_num < kWiFiStaMaxNumReconnectAttempts)
    (hf : s.wifi_fail_bit = true) :
    (∀ st ∈ handlerStates s (rs.map WiFiEvent.staDisconnected),
        st.s_retry_num = s.s_retry_num) ∧
    countConnects (runHandler s (rs.map WiFiEvent.staDisconnected)).2 = 0 ∧
    failEmissions s (rs.map WiFiEvent.staDisconnected) = 0 := by
  induction rs generalizing s with
  | nil =>
      simp [handlerStates, runHandler, failEmissions, countConnects]
  | cons r rs ih =>
      have hstep :
          WiFiEventHandler s (.staDisconnected r) =
            ({ s with wifi_connected_bit := false, wifi_sta_has_ip := false,
                      wifi_fail_bit := true }, [.setFailBit]) := by
        simp [WiFiEventHandler, hr]
      obtain ⟨ih1, ih2, ih3⟩ :=
        ih { s with wifi_connected_bit := false, wifi_sta_has_ip := false,
                    wifi_fail_bit := true } hr rfl
      refine ⟨?_, ?_, ?_⟩
      · intro st hst
        simp only [List.map_cons, handlerStates, hstep, List.mem_cons] at hst
        rcases hst with h | h
        · simp [h]
        · exact ih1 st h
      · simp only [List.map_cons, runHandler, hstep, countConnects_append]
        simpa [countConnects] using ih2
      · simp only [List.map_cons, failEmissions, hstep, hf]
        simpa using ih3

/-- Main trace lemma for bounded station reconnection: from any state with
the fail bit clear and the counter within bound, a run of `n` disconnect
events keeps the counter at most 5, attempts exactly `min n (5 - counter)`
reconnects, and emits the failure signal exactly once iff the remaining
budget is exhausted. -/
theorem disc_run_clean (rs : List Nat) (s : CommsState)
    (hf : s.wifi_fail_bit = false)
    (hr : s.s_retry_num ≤ kWiFiStaMaxNumReconnectAttempts) :
    (∀ st ∈ handlerStates s (rs.map WiFiEvent.staDisconnected),
        st.s_retry_num ≤ kWiFiStaMaxNumReconnectAttempts) ∧
    countConnects (runHandler s (rs.map WiFiEvent.staDisconnected)).2 =
      min rs.length (kWiFiStaMaxNumReconnectAttempts - s.s_retry_num) ∧
    failEmissions s (rs.map WiFiEvent.staDisconnected) =
      (if rs.length ≤ kWiFiStaMaxNumReconnectAttempts - s.s_retry_num
        then 0 else 1) := by
  induction rs generalizing s with
  | nil =>
      simp [handlerStates, runHandler, failEmissions, countConnects, hr]
  | cons r rs ih =>
      rw [kWiFiStaMaxNumReconnectAttempts_eq] at hr
      by_cases hlt : s.s_retry_num < kWiFiStaMaxNumReconnectAttempts
      · have hstep :
            WiFiEventHandler s (.staDisconnected r) =
              (⟨s.s_retry_num + 1, false, false, false, s.wifi_clients_list⟩,
                [.espWifiConnect]) := by
          simp [WiFiEventHandler, hlt, hf]
        rw [kWiFiStaMaxNumReconnectAttempts_eq] at hlt
        obtain ⟨ih1, ih2, ih3⟩ :=
          ih ⟨s.s_retry_num + 1, false, false, false, s.wifi_clients_list⟩ rfl
            (by rw [kWiFiStaMaxNumReconnectAttempts_eq]; show s.s_retry_num + 1 ≤ 5; omega)
        rw [kWiFiStaMaxNumReconnectAttempts_eq] at ih2 ih3
        try dsimp only at ih2 ih3
        refine ⟨?_, ?_, ?_⟩
        · intro st hst
          simp only [List.map_cons, handlerStates, hstep, List.mem_cons] at hst
          rcases hst with h | h
          · subst h; rw [kWiFiStaMaxNumReconnectAttempts_eq]; omega
          · exact ih1 st h
        · simp only [List.map_cons, runHandler, hstep, countConnects_append,
            kWiFiStaMaxNumReconnectAttempts_eq, List.length_cons]
          try dsimp only
          simp [countConnects, ih2]
          omega
        · simp only [List.map_cons, failEmissions, hstep,
            kWiFiStaMaxNumReconnectAttempts_eq, List.length_cons]
          try dsimp only
          simp [hf, ih3]
          split_ifs <;> omega
      · have hstep :
            WiFiEventHandler s (.staDisconnected r) =
              (⟨s.s_retry_num, false, true, false, s.wifi_clients_list⟩,
                [.setFailBit]) := by
          simp [WiFiEventHandler, hlt]
        obtain ⟨ih1, ih2, ih3⟩ :=
          disc_run_after_fail rs
            ⟨s.s_retry_num, false, true, false, s.wifi_clients_list⟩ hlt rfl
        rw [kWiFiStaMaxNumReconnectAttempts_eq] at hlt
        try dsimp only at ih1 ih2 ih3
        refine ⟨?_, ?_, ?_⟩
        · intro st hst
          simp only [List.map_cons, handlerStates, hstep, List.mem_cons] at hst
          rcases hst with h | h
          · subst h; rw [kWiFiStaMaxNumReconnectAttempts_eq]; omega
          · have := ih1 st h
            rw [kWiFiStaMaxNumReconnectAttempts_eq, this]
            omega
        · simp only [List.map_cons, runHandler, hstep, countConnects_append,
            kWiFiStaMaxNumReconnectAttempts_eq, List.length_cons]
          try dsimp only
          simp [countConnects, ih2]
          omega
        · simp only [List.map_cons, failEmissions, hstep,
            kWiFiStaMaxNumReconnectAttempts_eq, List.length_cons]
          try dsimp only
          simp [hf, ih3]
          split_ifs <;> omega

/-- C1: across every sequence of station-disconnected events handled by
`WiFiEventHandler` from the initial state, the reconnect counter never
exceeds `kWiFiStaMaxNumReconnectAttempts` (5); a reconnect (`esp_wifi_connect`)
is attempted, and the counter incremented, exactly on the disconnects whose
pre-state counter is below 5 (so exactly `min n 5` attempts over `n`
disconnects); and the terminal failure signal (`WIFI_FAIL_BIT`) transitions
from clear to set exactly once when the bound is exhausted, with no further
reconnect attempts afterwards. -/
theorem c1_station_reconnect_bounded (rs : List Nat) :
    (∀ st ∈ handlerStates initCommsState (rs.map WiFiEvent.staDisconnected),
        st.s_retry_num ≤ kWiFiStaMaxNumReconnectAttempts) ∧
    countConnects (runHandler initCommsState (rs.map WiFiEvent.staDisconnected)).2 =
      min rs.length kWiFiStaMaxNumReconnectAttempts ∧
    failEmissions initCommsState (rs.map WiFiEvent.staDisconnected) =
      (if rs.length ≤ kWiFiStaMaxNumReconnectAttempts then 0 else 1) ∧
    (∀ (s : CommsState) (r : Nat),
      ((WiFiEventHandler s (.staDisconnected r)).1.s_retry_num =
          (if s.s_retry_num < kWiFiStaMaxNumReconnectAttempts
            then s.s_retry_num + 1 else s.s_retry_num)) ∧
      ((WiFiEventHandler s (.staDisconnected r)).2 =
          (if s.s_retry_num < kWiFiStaMaxNumReconnectAttempts
            then [.espWifiConnect] else [.setFailBit]))) := by
  obtain ⟨h1, h2, h3⟩ := disc_run_clean rs initCommsState rfl (by simp [initCommsState])
  refine ⟨h1, ?_, ?_, ?_⟩
  · simpa [initCommsState] using h2
  · simpa [initCommsState] using h3
  · intro s r
    by_cases hlt : s.s_retry_num < kWiFiStaMaxNumReconnectAttempts <;>
      simp [WiFiEventHandler, hlt]

/-- C1 witness: seven consecutive disconnects from the initial state yield
exactly five reconnect attempts and exactly one failure-signal emission. -/
theorem c1_station_reconnect_bounded_witness :
    countConnects (runHandler initCommsState
      ((List.replicate 7 0).map WiFiEvent.staDisconnected)).2 = 5 ∧
    failEmissions initCommsState
      ((List.replicate 7 0).map WiFiEvent.staDisconnected) = 1 := by
  obtain ⟨-, h2, h3, -⟩ := c1_station_reconnect_bounded (List.replicate 7 0)
  refine ⟨?_, ?_⟩
  · simpa [kWiFiStaMaxNumReconnectAttempts] using h2
  · simpa [kWiFiStaMaxNumReconnectAttempts] using h3

/-- C6 counterexample: handling a client-associate event
(`WIFI_EVENT_AP_STACONNECTED`) at the initial state leaves the comms state
completely unchanged — in particular the client table stays empty, so no
ClientRecord is created or activated by the associate event (that case of the
handler only logs). -/
theorem c6_counterexample :
    (WiFiEventHandler initCommsState (WiFiEvent.apStaConnected 1 1)).1 = initCommsState ∧
    (WiFiEventHandler initCommsState (WiFiEvent.apStaConnected 1 1)).1.wifi_clients_list
      = [] := by
  decide

/-- C6 (amended): handling a client-associate event leaves the handler state
(and hence the client table) unchanged — client records are created elsewhere,
not by this event — while handling a client-disassociate event rewrites the
client table through `WiFiRemoveClient`, deactivating every record whose
hardware address matches the event's and leaving all other records exactly as
they were. -/
theorem c6_client_table_events (s : CommsState) (mac aid : Nat) :
    (WiFiEventHandler s (.apStaConnected mac aid)).1 = s ∧
    (WiFiEventHandler s (.apStaConnected mac aid)).2 = [] ∧
    (WiFiEventHandler s (.apStaDisconnected mac aid)).1.wifi_clients_list =
      WiFiRemoveClient s.wifi_clients_list mac ∧
    (∀ c ∈ (WiFiEventHandler s (.apStaDisconnected mac aid)).1.wifi_clients_list,
        c.mac = mac → c.active = false) ∧
    (∀ c ∈ (WiFiEventHandler s (.apStaDisconnected mac aid)).1.wifi_clients_list,
        c.mac ≠ mac → c ∈ s.wifi_clients_list) := by
  refine ⟨rfl, rfl, rfl, ?_, ?_⟩
  · intro c hc hmac
    simp only [WiFiEventHandler, WiFiRemoveClient, List.mem_map] at hc
    obtain ⟨c0, hc0, hceq⟩ := hc
    by_cases h0 : c0.mac = mac
    · simp [h0] at hceq
      subst hceq
      rfl
    · simp [h0] at hceq
      subst hceq
      exact absurd hmac h0
  · intro c hc hmac
    simp only [WiFiEventHandler, WiFiRemoveClient, List.mem_map] at hc
    obtain ⟨c0, hc0, hceq⟩ := hc
    by_cases h0 : c0.mac = mac
    · simp [h0] at hceq
      subst hceq
      simp at hmac
    · simp [h0] at hceq
      subst hceq
      exact hc0

/-- C6 witness: from a table with two active clients, a disassociate event for
MAC 1 deactivates exactly the matching record. -/
theorem c6_client_table_events_witness :
    (WiFiEventHandler ⟨0, false, false, false, [⟨1, 10, true⟩, ⟨2, 20, true⟩]⟩
        (WiFiEvent.apStaDisconnected 1 0)).1.wifi_clients_list =
      [⟨1, 10, false⟩, ⟨2, 20, true⟩] := by
  have h := c6_client_table_events
    ⟨0, false, false, false, [⟨1, 10, true⟩, ⟨2, 20, true⟩]⟩ 1 0
  rw [h.2.2.1]
  decide

/-- C10: the station reconnect counter is monotone under every event the
handler processes, `WiFiInit` leaves it untouched (the counter is a
function-static of the handler, and initialization never writes it), and once
it has reached `kWiFiStaMaxNumReconnectAttempts` every further
station-disconnect event takes the terminal-failure branch: counter unchanged,
fail bit set, no `esp_wifi_connect`. -/
theorem c10_retry_counter_never_reset :
    (∀ (s : CommsState) (e : WiFiEvent),
        s.s_retry_num ≤ (WiFiEventHandler s e).1.s_retry_num) ∧
    (∀ (st : SysState) (ap sta c f : Bool),
        (WiFiInit st ap sta c f).1.comms.s_retry_num = st.comms.s_retry_num) ∧
    (∀ (s : CommsState) (reason : Nat),
        kWiFiStaMaxNumReconnectAttempts ≤ s.s_retry_num →
          (WiFiEventHandler s (.staDisconnected reason)).1.s_retry_num = s.s_retry_num ∧
          (WiFiEventHandler s (.staDisconnected reason)).1.wifi_fail_bit = true ∧
          (WiFiEventHandler s (.staDisconnected reason)).2 = [.setFailBit]) := by
  refine ⟨?_, ?_, ?_⟩
  · intro s e
    cases e <;> simp [WiFiEventHandler]
    split <;> simp
  · intro st ap sta c f
    cases ap <;> cases sta <;> cases c <;> cases f <;> simp [WiFiInit]
  · intro s reason h
    have hlt : ¬ s.s_retry_num < kWiFiStaMaxNumReconnectAttempts := by omega
    simp [WiFiEventHandler, hlt]

/-- C10 witness: at a state whose counter sits at the maximum, a disconnect
event sets the fail bit and leaves the counter at 5. -/
theorem c10_retry_counter_never_reset_witness :
    kWiFiStaMaxNumReconnectAttempts ≤ 5 ∧
    (WiFiEventHandler ⟨5, false, false, false, []⟩
        (WiFiEvent.staDisconnected 0)).1.wifi_fail_bit = true ∧
    (WiFiEventHandler ⟨5, false, false, false, []⟩
        (WiFiEvent.staDisconnected 0)).1.s_retry_num = 5 := by
  have h := c10_retry_counter_never_reset.2.2 ⟨5, false, false, false, []⟩ 0 (by decide)
  exact ⟨by decide, h.2.1, h.1⟩

/-- C7 counterexample: with station mode enabled and the event-group wait
observing BOTH `WIFI_CONNECTED_BIT` and `WIFI_FAIL_BIT` set, `WiFiInit`
returns success and launches the forwarder task even though the failed signal
was observed — the connected bit is checked first, so the claim "returns
failure when the failed signal was observed" does not hold in this case. -/
theorem c7_counterexample :
    (WiFiInit ⟨initCommsState, false, false, false⟩ false true true true).2.ok = true ∧
    (WiFiInit ⟨initCommsState, false, false, false⟩
        false true true true).2.staTaskLaunched = true := by
  decide

/-- C7 (amended): with neither mode enabled `WiFiInit` stops the radio and
returns success immediately with no task launched; the forwarder (station)
task is launched exactly when station mode is enabled and the connected
signal was observed — in which case the call returns success regardless of the
fail bit; and the call returns failure when station mode is enabled and the
failed signal was observed without the connected signal. -/
theorem c7_wifiinit_behavior (st : SysState) (ap sta c f : Bool) :
    (ap = false → sta = false →
        (WiFiInit st ap sta c f).2.ok = true ∧
        (WiFiInit st ap sta c f).2.radioStopped = true ∧
        (WiFiInit st ap sta c f).2.apTaskLaunched = false ∧
        (WiFiInit st ap sta c f).2.staTaskLaunched = false) ∧
    ((WiFiInit st ap sta c f).2.staTaskLaunched = true ↔ (sta = true ∧ c = true)) ∧
    (sta = true → c = true → (WiFiInit st ap sta c f).2.ok = true) ∧
    (sta = true → f = true → c = false →
        (WiFiInit st ap sta c f).2.ok = false ∧
        (WiFiInit st ap sta c f).2.staTaskLaunched = false) := by
  cases ap <;> cases sta <;> cases c <;> cases f <;> simp [WiFiInit]

/-- C7 witness: station mode enabled, only the fail bit observed — the call
returns failure and does not launch the forwarder task. -/
theorem c7_wifiinit_behavior_witness :
    (WiFiInit ⟨initCommsState, false, false, false⟩ false true false true).2.ok = false ∧
    (WiFiInit ⟨initCommsState, false, false, false⟩
        false true false true).2.staTaskLaunched = false :=
  (c7_wifiinit_behavior ⟨initCommsState, false, false, false⟩
    false true false true).2.2.2 rfl rfl rfl

/-- C9: over the register transport's fixed address space, a `Write` that
returns success — with or without acknowledgment requested — followed by a
`Read` of the same address yields exactly the written value, for both the
scalar scratch register and the structured settings block. -/
theorem c9_register_write_read (od : ObjectDictionaryState) (addr : ODAddress)
    (v : ODValue) (ack : Bool)
    (h : (SPICoprocessorWrite od addr v ack).1 = true) :
    SPICoprocessorRead (SPICoprocessorWrite od addr v ack).2 addr = (v, true) := by
  cases addr <;> cases v <;>
    simp [SPICoprocessorWrite, SPICoprocessorRead] at h ⊢

/-- C9 witness: writing 0xDEADBEEF to the scratch register without ack (the
`WriteReadScratchNoAck` target test) succeeds and reads back the same value. -/
theorem c9_register_write_read_witness :
    (SPICoprocessorWrite ⟨0, []⟩ .kAddrScratch (.scalar 3735928559) false).1 = true ∧
    SPICoprocessorRead
      (SPICoprocessorWrite ⟨0, []⟩ .kAddrScratch (.scalar 3735928559) false).2
      .kAddrScratch = (.scalar 3735928559, true) :=
  ⟨by decide,
    c9_register_write_read ⟨0, []⟩ .kAddrScratch (.scalar 3735928559) false (by decide)⟩

/-- C5: for both public enqueue operations, when the owning task is running
and the underlying bounded queue is full, the call returns failure to the
caller and the queue is reset to empty — neither partially drained nor
partially full. -/
theorem c5_enqueue_full_resets
    (qs : BoundedQueue DecodedTransponderPacket) (p : DecodedTransponderPacket)
    (qa : BoundedQueue NetworkMessage) (m : NetworkMessage)
    (hfs : qs.capacity ≤ qs.items.length) (hfa : qa.capacity ≤ qa.items.length) :
    ((WiFiStationSendDecodedTransponderPacket true qs p).1 = false ∧
      (WiFiStationSendDecodedTransponderPacket true qs p).2.items = []) ∧
    ((WiFiAccessPointSendMessageToAllStations true qa m).1 = false ∧
      (WiFiAccessPointSendMessageToAllStations true qa m).2.items = []) := by
  constructor
  · simp [WiFiStationSendDecodedTransponderPacket, xQueueSend, xQueueReset, hfs]
  · simp [WiFiAccessPointSendMessageToAllStations, xQueueSend, xQueueReset, hfa]

/-- C5 witness: a capacity-1 queue holding one item is full; both enqueue
operations report failure and leave it empty. -/
theorem c5_enqueue_full_resets_witness :
    (WiFiStationSendDecodedTransponderPacket true ⟨[⟨[0], true⟩], 1⟩ ⟨[1], true⟩).1
      = false ∧
    (WiFiStationSendDecodedTransponderPacket true ⟨[⟨[0], true⟩], 1⟩ ⟨[1], true⟩).2.items
      = [] :=
  (c5_enqueue_full_resets ⟨[⟨[0], true⟩], 1⟩ ⟨[1], true⟩
    ⟨[⟨[0], 1, 2⟩], 1⟩ ⟨[9], 1, 3⟩ (by decide) (by decide)).1

/-- The send dispatch never touches a slot's socket handle or its
reconnect-attempt timestamp. -/
theorem feedSendPhase_preserves
    (codec : DecodedTransponderPacket → List Nat → List Nat)
    (cfg : FeedConfig) (packet : DecodedTransponderPacket)
    (env : NetEnv) (st : FeedSlotState) (m : Nat) :
    (feedSendPhase codec cfg packet env st m).1.feed_sock = st.feed_sock ∧
    (feedSendPhase codec cfg packet env st m).1.feed_sock_last_connect_timestamp_ms =
      st.feed_sock_last_connect_timestamp_ms := by
  cases hp : cfg.feed_protocol <;>
    simp [feedSendPhase, feedSendBeast, hp] <;> split_ifs <;> simp

/-- The send dispatch has exactly three outcomes: nothing (unsupported
protocol or invalid Beast packet), a successful send with the counter
incremented, or a failed send followed by closing the socket and marking the
slot disconnected. -/
theorem feedSendPhase_cases
    (codec : DecodedTransponderPacket → List Nat → List Nat)
    (cfg : FeedConfig) (packet : DecodedTransponderPacket)
    (env : NetEnv) (st : FeedSlotState) (m : Nat) :
    feedSendPhase codec cfg packet env st m = (st, m, []) ∨
    feedSendPhase codec cfg packet env st m =
      (st, m + 1, [.sendMsg st.feed_sock (codec packet cfg.feed_receiver_id)]) ∨
    feedSendPhase codec cfg packet env st m =
      ({ st with feed_sock_is_connected := false }, m,
        [.sendMsg st.feed_sock (codec packet cfg.feed_receiver_id),
          .closeSock st.feed_sock]) := by
  cases hp : cfg.feed_protocol <;>
    simp [feedSendPhase, feedSendBeast, hp] <;> split_ifs <;> simp <;>
      first
      | assumption
      | omega

/-- C2: for an active feed slot, (a) whenever a send is attempted and fails
(`send()` returns negative; the Beast protocols are the only senders), the
forwarder closes the slot's socket and marks it disconnected in the same
iteration; (b) while the slot is disconnected and the time since the slot's
last connect attempt is within `kWiFiTCPSocketReconnectIntervalMs` (5000 ms,
uint32 wrap-around difference), the iteration performs no action at all on
that slot — no connect attempt, no send — and leaves its state unchanged;
(c) any iteration that does act on a disconnected slot (past the window)
stamps the slot's last-connect-attempt timestamp with the current time, so at
most one connection attempt is made per 5000 ms interval per slot. -/
theorem c2_send_failure_and_reconnect_rate_limit
    (codec : DecodedTransponderPacket → List Nat → List Nat)
    (cfg : FeedConfig) (packet : DecodedTransponderPacket)
    (now_ms : Nat) (env : NetEnv) (st : FeedSlotState) (mps : Nat) :
    (cfg.feed_is_active = true → st.feed_sock_is_connected = true →
      env.sendRet < 0 →
      (cfg.feed_protocol = .kBeastRaw ∨
        (cfg.feed_protocol = .kBeast ∧ packet.IsValid = true)) →
      (feedSlotStep codec cfg packet now_ms env st mps).1.feed_sock_is_connected
          = false ∧
      FeedAction.closeSock st.feed_sock ∈
        (feedSlotStep codec cfg packet now_ms env st mps).2.2) ∧
    (cfg.feed_is_active = true → st.feed_sock_is_connected = false →
      u32sub now_ms st.feed_sock_last_connect_timestamp_ms ≤
          kWiFiTCPSocketReconnectIntervalMs →
      feedSlotStep codec cfg packet now_ms env st mps = (st, mps, [])) ∧
    (cfg.feed_is_active = true → st.feed_sock_is_connected = false →
      kWiFiTCPSocketReconnectIntervalMs <
          u32sub now_ms st.feed_sock_last_connect_timestamp_ms →
      (feedSlotStep codec cfg packet now_ms env st
          mps).1.feed_sock_last_connect_timestamp_ms = now_ms) := by
  refine ⟨?_, ?_, ?_⟩
  · intro ha hc hsend hproto
    have hstep : feedSlotStep codec cfg packet now_ms env st mps =
        feedSendPhase codec cfg packet env st mps := by
      simp [feedSlotStep, ha, hc]
    rw [hstep]
    rcases hproto with hpr | ⟨hpr, hvalid⟩
    · simp [feedSendPhase, hpr, feedSendBeast, hsend]
    · simp [feedSendPhase, hpr, hvalid, feedSendBeast, hsend]
  · intro ha hc hwin
    simp [feedSlotStep, ha, hc, hwin]
  · intro ha hc hwin
    have hnot : ¬ (u32sub now_ms st.feed_sock_last_connect_timestamp_ms ≤
        kWiFiTCPSocketReconnectIntervalMs) := by omega
    simp only [feedSlotStep, ha, hc, hnot, Bool.not_true, Bool.not_false,
      if_false, if_true, Bool.false_eq_true, ite_false, ite_true]
    split_ifs <;>
      simp [feedSendPhase_preserves]

/-- C2 witness: a disconnected active slot whose last attempt was 1000 ms ago
is left untouched, and a connected Beast-raw slot whose send fails is closed
and marked disconnected. -/
theorem c2_send_failure_and_reconnect_rate_limit_witness :
    (feedSlotStep (fun p _ => p.raw) ⟨true, .kBeastRaw, [], 30005, [7]⟩ ⟨[1], true⟩
        1000 ⟨5, true, 0, -1⟩ ⟨0, false, 0⟩ 0 = (⟨0, false, 0⟩, 0, [])) ∧
    ((feedSlotStep (fun p _ => p.raw) ⟨true, .kBeastRaw, [], 30005, [7]⟩ ⟨[1], true⟩
        1000 ⟨5, true, 0, -1⟩ ⟨9, true, 0⟩ 0).1.feed_sock_is_connected = false) := by
  have h := c2_send_failure_and_reconnect_rate_limit (fun p _ => p.raw)
    ⟨true, .kBeastRaw, [], 30005, [7]⟩ ⟨[1], true⟩ 1000 ⟨5, true, 0, -1⟩
    ⟨0, false, 0⟩ 0
  have h2 := c2_send_failure_and_reconnect_rate_limit (fun p _ => p.raw)
    ⟨true, .kBeastRaw, [], 30005, [7]⟩ ⟨[1], true⟩ 1000 ⟨5, true, 0, -1⟩
    ⟨9, true, 0⟩ 0
  refine ⟨h.2.1 rfl rfl (by decide), (h2.1 rfl rfl (by decide) (Or.inl rfl)).1⟩

/-- C3: on a connected, active feed slot configured with the Beast protocol,
a dequeued packet failing its validity check causes no action at all (no send,
state and per-feed message counter unchanged); a valid packet causes exactly
one framed message — the external codec's serialization, receiver id
prepended — to be sent on the slot's socket, with the counter incremented by
exactly 1 on send success and unchanged on send failure. -/
theorem c3_beast_valid_send_counter
    (codec : DecodedTransponderPacket → List Nat → List Nat)
    (cfg : FeedConfig) (packet : DecodedTransponderPacket)
    (now_ms : Nat) (env : NetEnv) (st : FeedSlotState) (mps : Nat)
    (ha : cfg.feed_is_active = true) (hc : st.feed_sock_is_connected = true)
    (hp : cfg.feed_protocol = .kBeast) :
    (packet.IsValid = false →
      feedSlotStep codec cfg packet now_ms env st mps = (st, mps, [])) ∧
    (packet.IsValid = true →
      ((feedSlotStep codec cfg packet now_ms env st mps).2.2 =
          [.sendMsg st.feed_sock (codec packet cfg.feed_receiver_id)] ∨
        (feedSlotStep codec cfg packet now_ms env st mps).2.2 =
          [.sendMsg st.feed_sock (codec packet cfg.feed_receiver_id),
            .closeSock st.feed_sock]) ∧
      (0 ≤ env.sendRet →
        (feedSlotStep codec cfg packet now_ms env st mps).2.1 = mps + 1 ∧
        (feedSlotStep codec cfg packet now_ms env st mps).2.2 =
          [.sendMsg st.feed_sock (codec packet cfg.feed_receiver_id)]) ∧
      (env.sendRet < 0 →
        (feedSlotStep codec cfg packet now_ms env st mps).2.1 = mps)) := by
  have hstep : feedSlotStep codec cfg packet now_ms env st mps =
      feedSendPhase codec cfg packet env st mps := by
    simp [feedSlotStep, ha, hc]
  rw [hstep]
  constructor
  · intro hv
    simp [feedSendPhase, hp, hv]
  · intro hv
    by_cases hs : env.sendRet < 0
    · simp [feedSendPhase, hp, hv, feedSendBeast, hs]
    · simp [feedSendPhase, hp, hv, feedSendBeast, hs]

/-- C3 witness: on feed slot socket 9, an invalid packet produces no send and
leaves the counter at 0; a valid packet produces exactly one framed send (the
codec output with the receiver id prepended) and bumps the counter to 1. -/
theorem c3_beast_valid_send_counter_witness :
    (feedSlotStep (fun p rid => rid ++ p.raw) ⟨true, .kBeast, [], 30005, [7]⟩
        ⟨[1, 2], false⟩ 1000 ⟨5, true, 0, 4⟩ ⟨9, true, 0⟩ 0 =
      (⟨9, true, 0⟩, 0, [])) ∧
    ((feedSlotStep (fun p rid => rid ++ p.raw) ⟨true, .kBeast, [], 30005, [7]⟩
        ⟨[1, 2], true⟩ 1000 ⟨5, true, 0, 4⟩ ⟨9, true, 0⟩ 0).2.1 = 1) ∧
    ((feedSlotStep (fun p rid => rid ++ p.raw) ⟨true, .kBeast, [], 30005, [7]⟩
        ⟨[1, 2], true⟩ 1000 ⟨5, true, 0, 4⟩ ⟨9, true, 0⟩ 0).2.2 =
      [.sendMsg 9 [7, 1, 2]]) := by
  have hinv := c3_beast_valid_send_counter (fun p rid => rid ++ p.raw)
    ⟨true, .kBeast, [], 30005, [7]⟩ ⟨[1, 2], false⟩ 1000 ⟨5, true, 0, 4⟩
    ⟨9, true, 0⟩ 0 rfl rfl rfl
  have hval := c3_beast_valid_send_counter (fun p rid => rid ++ p.raw)
    ⟨true, .kBeast, [], 30005, [7]⟩ ⟨[1, 2], true⟩ 1000 ⟨5, true, 0, 4⟩
    ⟨9, true, 0⟩ 0 rfl rfl rfl
  refine ⟨hinv.1 rfl, ((hval.2 rfl).2.1 (by decide)).1, ?_⟩
  have h := ((hval.2 rfl).2.1 (by decide)).2
  simpa using h

/-- Normal form of the bounded-retry `sendto` loop: it breaks on the first
attempt whose result is success or a non-ENOMEM error, and stops after the
third attempt regardless. -/
theorem udpSendLoop_eq (results : Nat → SendtoResult) :
    udpSendLoop results =
      if 0 ≤ (results 0).ret ∨ (results 0).errnoVal ≠ ENOMEM then (1, results 0)
      else if 0 ≤ (results 1).ret ∨ (results 1).errnoVal ≠ ENOMEM then (2, results 1)
      else (3, results 2) := by
  by_cases h0 : 0 ≤ (results 0).ret ∨ (results 0).errnoVal ≠ ENOMEM
  · rw [if_pos h0]
    show udpSendFrom results 0 = (1, results 0)
    rw [udpSendFrom]
    simp [kWiFiNumRetries, h0]
  · rw [if_neg h0]
    by_cases h1 : 0 ≤ (results 1).ret ∨ (results 1).errnoVal ≠ ENOMEM
    · rw [if_pos h1]
      show udpSendFrom results 0 = (2, results 1)
      rw [udpSendFrom]
      simp [kWiFiNumRetries, h0]
      rw [udpSendFrom]
      simp [kWiFiNumRetries, h1]
    · rw [if_neg h1]
      show udpSendFrom results 0 = (3, results 2)
      rw [udpSendFrom]
      simp [kWiFiNumRetries, h0]
      rw [udpSendFrom]
      simp [kWiFiNumRetries, h1]
      rw [udpSendFrom]
      simp [kWiFiNumRetries]
      intro h2
      rw [udpSendFrom]
      simp [kWiFiNumRetries]

/-- Indices of active clients distribute as expected. -/
theorem broadcastFrom_eq_map (cresults : Nat → Nat → SendtoResult)
    (clients : List ClientRecord) (i : Nat) :
    broadcastFrom clients cresults i =
      (activeIdxs clients i).map (fun k => udpSendLoop (cresults k)) := by
  induction clients generalizing i with
  | nil => simp [broadcastFrom, activeIdxs]
  | cons c rest ih =>
      cases hc : c.active <;> simp [broadcastFrom, activeIdxs, hc, ih]

/-- C4: for every broadcast message and client, the UDP send loop performs
between 1 and `kWiFiNumRetries` (3) attempts; an attempt beyond the first is
made only when every earlier attempt failed with `ENOMEM`; a success or a
non-ENOMEM failure at any reached attempt stops the loop immediately with that
result; and the fan-out runs one fully independent retry loop per active
client, so one client's outcome never prevents the attempts of the remaining
clients. -/
theorem c4_udp_bounded_retry (results : Nat → SendtoResult)
    (cresults : Nat → Nat → SendtoResult) (clients : List ClientRecord) (i : Nat) :
    (1 ≤ (udpSendLoop results).1 ∧ (udpSendLoop results).1 ≤ kWiFiNumRetries) ∧
    (∀ j, j + 1 < (udpSendLoop results).1 →
        (results j).ret < 0 ∧ (results j).errnoVal = ENOMEM) ∧
    (∀ j, j < kWiFiNumRetries →
        (0 ≤ (results j).ret ∨ (results j).errnoVal ≠ ENOMEM) →
        (∀ k, k < j → (results k).ret < 0 ∧ (results k).errnoVal = ENOMEM) →
        udpSendLoop results = (j + 1, results j)) ∧
    broadcastFrom clients cresults i =
      (activeIdxs clients i).map (fun k => udpSendLoop (cresults k)) := by
  refine ⟨?_, ?_, ?_, broadcastFrom_eq_map cresults clients i⟩
  · rw [udpSendLoop_eq]
    split_ifs <;> simp [kWiFiNumRetries]
  · intro j hj
    rw [udpSendLoop_eq] at hj
    split_ifs at hj with h0 h1
    · omega
    · have hj0 : j = 0 := by omega
      subst hj0
      push_neg at h0
      exact ⟨h0.1, h0.2⟩
    · have hj01 : j = 0 ∨ j = 1 := by omega
      push_neg at h0 h1
      rcases hj01 with rfl | rfl
      · exact ⟨h0.1, h0.2⟩
      · exact ⟨h1.1, h1.2⟩
  · intro j hj hstop hprev
    rw [udpSendLoop_eq]
    rw [kWiFiNumRetries] at hj
    have hj3 : j = 0 ∨ j = 1 ∨ j = 2 := by omega
    rcases hj3 with rfl | rfl | rfl
    · rw [if_pos hstop]
    · have h0 := hprev 0 (by omega)
      rw [if_neg (by push_neg; exact ⟨by omega, h0.2⟩), if_pos hstop]
    · have h0 := hprev 0 (by omega)
      have h1 := hprev 1 (by omega)
      rw [if_neg (by push_neg; exact ⟨by omega, h0.2⟩),
        if_neg (by push_neg; exact ⟨by omega, h1.2⟩)]

/-- C4 witness: with ENOMEM on every attempt the loop tries exactly 3 times;
with a non-ENOMEM error on the first attempt it stops after 1; and a
three-client table with the middle client inactive fans out to exactly the
two active clients. -/
theorem c4_udp_bounded_retry_witness :
    udpSendLoop (fun _ => ⟨-1, 12⟩) = (3, ⟨-1, 12⟩) ∧
    udpSendLoop (fun _ => ⟨-1, 32⟩) = (1, ⟨-1, 32⟩) ∧
    broadcastFrom [⟨1, 10, true⟩, ⟨2, 20, false⟩, ⟨3, 30, true⟩]
        (fun _ _ => ⟨0, 0⟩) 0 =
      [(1, ⟨0, 0⟩), (1, ⟨0, 0⟩)] := by
  have h3 := (c4_udp_bounded_retry (fun _ => ⟨-1, 32⟩) (fun _ _ => ⟨0, 0⟩)
    [⟨1, 10, true⟩, ⟨2, 20, false⟩, ⟨3, 30, true⟩] 0).2.2.1 0 (by decide)
    (by right; decide) (by omega)
  have hmap := (c4_udp_bounded_retry (fun _ => ⟨-1, 32⟩) (fun _ _ => ⟨0, 0⟩)
    [⟨1, 10, true⟩, ⟨2, 20, false⟩, ⟨3, 30, true⟩] 0).2.2.2
  refine ⟨?_, h3, ?_⟩
  · rw [udpSendLoop_eq]
    simp [ENOMEM]
  · rw [hmap]
    rw [udpSendLoop_eq]
    simp [ENOMEM, activeIdxs]

/-- The shutdown sweep leaves every slot disconnected and emits a close for
every slot that was connected. -/
theorem closeAllSockets_spec (sts : List FeedSlotState) :
    (∀ s' ∈ (closeAllSockets sts).1, s'.feed_sock_is_connected = false) ∧
    (∀ s' ∈ sts, s'.feed_sock_is_connected = true →
        FeedAction.closeSock s'.feed_sock ∈ (closeAllSockets sts).2) := by
  induction sts with
  | nil => simp [closeAllSockets]
  | cons st rest ih =>
      obtain ⟨ih1, ih2⟩ := ih
      cases hc : st.feed_sock_is_connected
      · refine ⟨?_, ?_⟩
        · intro s' hs'
          simp only [closeAllSockets, hc] at hs'
          simp only [Bool.false_eq_true, if_false, List.mem_cons] at hs'
          rcases hs' with h | h
          · subst h; exact hc
          · exact ih1 s' h
        · intro s' hs' hconn
          rcases List.mem_cons.mp hs' with h | h
          · subst h; rw [hc] at hconn; cases hconn
          · have hmem := ih2 s' h hconn
            simp only [closeAllSockets, hc]
            simpa using hmem
      · refine ⟨?_, ?_⟩
        · intro s' hs'
          simp only [closeAllSockets, hc] at hs'
          simp only [if_true, List.mem_cons] at hs'
          rcases hs' with h | h
          · subst h; rfl
          · exact ih1 s' h
        · intro s' hs' hconn
          rcases List.mem_cons.mp hs' with h | h
          · subst h
            simp only [closeAllSockets, hc]
            simp
          · have hmem := ih2 s' h hconn
            simp only [closeAllSockets, hc]
            simp only [if_true, List.mem_cons]
            right
            simpa using hmem

/-- Per-slot socket discipline of one forwarder iteration. -/
theorem feedSlotStep_socket_ok
    (codec : DecodedTransponderPacket → List Nat → List Nat)
    (cfg : FeedConfig) (packet : DecodedTransponderPacket)
    (now_ms : Nat) (env : NetEnv) (st : FeedSlotState) (mps : Nat) :
    openCountsOk (if st.feed_sock_is_connected then 1 else 0)
      (feedSlotStep codec cfg packet now_ms env st mps).2.2 = true ∧
    openAfter (if st.feed_sock_is_connected then 1 else 0)
        (feedSlotStep codec cfg packet now_ms env st mps).2.2 =
      (if (feedSlotStep codec cfg packet now_ms env st
            mps).1.feed_sock_is_connected then 1 else 0) ∧
    (st.feed_sock_is_connected = true →
      hasOpenAction (feedSlotStep codec cfg packet now_ms env st mps).2.2 = false) ∧
    (cfg.feed_is_active = false →
      hasSendAction (feedSlotStep codec cfg packet now_ms env st mps).2.2 = false ∧
      (feedSlotStep codec cfg packet now_ms env st mps).1.feed_sock_is_connected
          = false ∧
      (st.feed_sock_is_connected = true →
        (feedSlotStep codec cfg packet now_ms env st mps).2.2 =
          [.closeSock st.feed_sock])) ∧
    (st.feed_sock_is_connected = true →
      (feedSlotStep codec cfg packet now_ms env st mps).1.feed_sock_is_connected
          = false →
      FeedAction.closeSock st.feed_sock ∈
        (feedSlotStep codec cfg packet now_ms env st mps).2.2) := by
  cases ha : cfg.feed_is_active <;> cases hc : st.feed_sock_is_connected
  · -- inactive, disconnected: nothing happens
    simp [feedSlotStep, ha, hc, openCountsOk, openAfter, hasOpenAction,
      hasSendAction]
  · -- inactive, connected: single close
    simp [feedSlotStep, ha, hc, openCountsOk, openAfter, feedActionOpenDelta,
      hasOpenAction, hasSendAction]
  · -- active, disconnected: connect phase
    by_cases hwin : u32sub now_ms st.feed_sock_last_connect_timestamp_ms ≤
        kWiFiTCPSocketReconnectIntervalMs
    · simp [feedSlotStep, ha, hc, hwin, openCountsOk, openAfter, hasOpenAction,
        hasSendAction]
    · by_cases hsock : env.socketRet ≤ 0
      · simp [feedSlotStep, ha, hc, hwin, hsock, openCountsOk, openAfter,
          hasOpenAction, hasSendAction]
      · by_cases hdns : (IsNotIPAddress cfg.feed_uri && !env.dnsOk) = true
        · simp [feedSlotStep, ha, hc, hwin, hsock, hdns, openCountsOk, openAfter,
            feedActionOpenDelta, hasOpenAction, hasSendAction]
        · by_cases hconn : env.connectRet ≠ 0
          · simp [feedSlotStep, ha, hc, hwin, hsock, hdns, hconn, openCountsOk,
              openAfter, feedActionOpenDelta, hasOpenAction, hasSendAction]
          · rcases feedSendPhase_cases codec cfg packet env
                ⟨env.socketRet, true,
                  now_ms⟩ mps with hph | hph | hph <;>
              simp [feedSlotStep, ha, hc, hwin, hsock, hdns, hconn, hph,
                openCountsOk, openAfter, feedActionOpenDelta, hasOpenAction,
                hasSendAction]
  · -- active, connected: send phase only
    rcases feedSendPhase_cases codec cfg packet env st mps with hph | hph | hph <;>
      simp [feedSlotStep, ha, hc, hph, openCountsOk, openAfter,
        feedActionOpenDelta, hasOpenAction, hasSendAction]

/-- C8: per feed slot, the forwarder keeps at most one socket open at every
point of an iteration's action trace (starting from one open socket when the
slot is connected, none otherwise), and afterwards exactly one socket is open
iff the slot is marked connected; no socket is created while the slot is
connected; an inactive slot performs no send, ends disconnected, and — when it
had an open socket — the iteration's whole trace is the single close of that
socket; every iteration that takes a connected slot to disconnected contains
the close of its socket; and the task-shutdown sweep disconnects every slot
and closes the socket of every slot that was connected. -/
theorem c8_one_socket_per_slot
    (codec : DecodedTransponderPacket → List Nat → List Nat)
    (cfg : FeedConfig) (packet : DecodedTransponderPacket)
    (now_ms : Nat) (env : NetEnv) (st : FeedSlotState) (mps : Nat)
    (sts : List FeedSlotState) :
    openCountsOk (if st.feed_sock_is_connected then 1 else 0)
      (feedSlotStep codec cfg packet now_ms env st mps).2.2 = true ∧
    openAfter (if st.feed_sock_is_connected then 1 else 0)
        (feedSlotStep codec cfg packet now_ms env st mps).2.2 =
      (if (feedSlotStep codec cfg packet now_ms env st
            mps).1.feed_sock_is_connected then 1 else 0) ∧
    (st.feed_sock_is_connected = true →
      hasOpenAction (feedSlotStep codec cfg packet now_ms env st mps).2.2 = false) ∧
    (cfg.feed_is_active = false →
      hasSendAction (feedSlotStep codec cfg packet now_ms env st mps).2.2 = false ∧
      (feedSlotStep codec cfg packet now_ms env st mps).1.feed_sock_is_connected
          = false ∧
      (st.feed_sock_is_connected = true →
        (feedSlotStep codec cfg packet now_ms env st mps).2.2 =
          [.closeSock st.feed_sock])) ∧
    (st.feed_sock_is_connected = true →
      (feedSlotStep codec cfg packet now_ms env st mps).1.feed_sock_is_connected
          = false →
      FeedAction.closeSock st.feed_sock ∈
        (feedSlotStep codec cfg packet now_ms env st mps).2.2) ∧
    (∀ s' ∈ (closeAllSockets sts).1, s'.feed_sock_is_connected = false) ∧
    (∀ s' ∈ sts, s'.feed_sock_is_connected = true →
        FeedAction.closeSock s'.feed_sock ∈ (closeAllSockets sts).2) := by
  obtain ⟨h1, h2, h3, h4, h5⟩ :=
    feedSlotStep_socket_ok codec cfg packet now_ms env st mps
  obtain ⟨hca1, hca2⟩ := closeAllSockets_spec sts
  exact ⟨h1, h2, h3, h4, h5, hca1, hca2⟩

/-- C8 witness: an inactive slot holding open socket 9 emits exactly one
close and ends disconnected, and the shutdown sweep closes the socket of a
connected slot. -/
theorem c8_one_socket_per_slot_witness :
    hasSendAction (feedSlotStep (fun p _ => p.raw)
        ⟨false, .kBeastRaw, [], 30005, [7]⟩ ⟨[1], true⟩ 0 ⟨5, true, 0, 4⟩
        ⟨9, true, 0⟩ 0).2.2 = false ∧
    (feedSlotStep (fun p _ => p.raw) ⟨false, .kBeastRaw, [], 30005, [7]⟩
        ⟨[1], true⟩ 0 ⟨5, true, 0, 4⟩ ⟨9, true, 0⟩ 0).2.2 =
      [.closeSock 9] ∧
    FeedAction.closeSock 9 ∈ (closeAllSockets [⟨9, true, 0⟩]).2 := by
  have h := c8_one_socket_per_slot (fun p _ => p.raw)
    ⟨false, .kBeastRaw, [], 30005, [7]⟩ ⟨[1], true⟩ 0 ⟨5, true, 0, 4⟩
    ⟨9, true, 0⟩ 0 [⟨9, true, 0⟩]
  obtain ⟨-, -, -, h4, -, -, h7⟩ := h
  exact ⟨(h4 rfl).1, (h4 rfl).2.2 rfl, h7 ⟨9, true, 0⟩ (by simp) rfl⟩
